import Mathlib

/-!
Shallow embedding of the session and dispatch core of src/main.py
(the LINE webhook chatbot).  The embedding covers the per-user state kept
in the module-level dictionary user_sessions and the behaviour of the
handler handle_message (src/main.py lines 201-353): daily session reset,
quota enforcement, context-window construction, and the
success / error / malformed-response outcomes of the Gemini backend call.

Dates are modelled as abstract natural numbers (only equality of
datetime.date values is used by the code).  The Gemini backend and the
get_profile call are modelled as oracles passed in as arguments: the
handler consumes them exactly where the code performs the corresponding
network call.
-/

set_option autoImplicit false

namespace ShipBot

/-- One conversation turn.  The code stores history entries as two-element
Python lists of role and text (src/main.py lines 327-328). -/
structure Turn where
  role : String
  text : String
deriving DecidableEq

/-- Per-user session record, mirroring the dictionary value created at
src/main.py lines 218-223. -/
structure Session where
  history : List Turn
  request_count : Nat
  last_request_date : Nat
  display_name : String
deriving DecidableEq

/-- src/main.py line 86: MAX_GEMINI_REQUESTS_PER_DAY = 20. -/
def MAX_GEMINI_REQUESTS_PER_DAY : Nat := 20

/-- src/main.py line 133: MAX_CONTEXT_TURNS = 6. -/
def MAX_CONTEXT_TURNS : Nat := 6

/-- src/main.py lines 90-120: the fixed system prompt.  Braces that occur
in the original text are written with hexadecimal escapes. -/
def SHIP_SUPPORT_SYSTEM_PROMPT : String :=
  "\nあなたは障害福祉分野に詳しい専門相談員であり、「支援メイトBot」という名前のAIです。\n支援者が適切な判断と対応ができるように、心理的・制度的・現場実践的なアドバイスを端的に提供してください。\n\n支援者からの質問は、以下の形式のいずれかの情報を含んでいる可能性があります。\n全ての項目が一度に提供されなくても構いません。提供された情報に基づいて、現時点で可能な範囲でのアドバイスを提供してください。\nより詳細な情報をご提供いただけると、回答の精度が高まります。\n\n【質問形式の項目】\n* **【事業所種別】**：\x7b支援領域\x7d（例：就労移行支援、就労定着支援、B型作業所、放課後等デイサービス、グループホームなど）\n    どのような事業所の支援についてお困りですか？ (例: 「就労移行について相談です」)\n* **【障害種別】**：\x7b障害名\x7d（障害の特性）（例：発達障害（ASD）、統合失調症、知的障害3度、精神障害2級、身体障害、高次脳、難病など）\n    対象となる方の障害の特性（例：統合失調症、知的障害3度、精神障害2級など）を教えていただけますか？ (例: 「発達障害（ASD）の方についてです」)\n* **【利用者の状態】**：\x7b状態・フェーズ\x7d（例：初回面談、不安定、暴言、職場トラブル、家庭問題、就職後定着、体調の波が激しい、他利用者とのトラブル、作業拒否が多いなど）\n    利用者の現在の具体的な状態やフェーズはどのような状況でしょうか？ (例: 「最近、情緒が不安定で…」)\n* **【支援者の悩み・相談内容】**：\x7bフリーテキスト入力\x7d（例：報連相が苦手で、実習先との連携に悩んでいます。など）\n    具体的にどのような点でお悩みでしょうか？ (例: 「日中活動への参加が難しい利用者への対応について」)\n\n【回答条件】\n* 提供された情報が一部でも、その情報に基づいた**仮のアドバイスや一般的な情報を提供**してください。\n* 情報が不足している場合は、**具体的にどのような情報（上記の例のような問いかけ）があればより的確なアドバイスができるか**を、ユーザーが次の質問で答えやすいように促してください。\n* 支援者の心理的な安心感にも配慮し、寄り添うトーンで回答してください。\n* 具体的な対応方法を2〜3案、簡潔に提示してください。\n* 必要に応じて、関連する制度、推奨される研修、または専門資格などを紹介してください。\n* 専門用語は避け、分かりやすい言葉で説明してください。\n* 返答は長すぎず、支援者がすぐに理解できる適切な長さに調整してください。\n* **各応答の最後に、支援者がさらに質問しやすくなるような、関連性のある問いかけや、次のアクションを促す言葉を必ず含めてください。**\n* AIは個別のケースに関する具体的な判断や、医療・法律に関する専門的なアドバイスは行いません。緊急を要する事柄や、詳細な個人情報に基づいた相談、専門的な判断が必要な場合は、**「この内容については、より詳細な情報が必要なため、各事業所の担当者または法人本部にお問い合わせください。」**と案内し、担当部署への問い合わせを促してください。\n\n**Gemini APIの無料枠を考慮し、無駄なトークン消費を避けるため、簡潔かつ的確な応答を心がけてください。また、同じような質問の繰り返しは避け、会話の進展を促してください。**\n"

/-- src/main.py line 290: the fixed acknowledgment turn text of the
preamble pair. -/
def GEMINI_ACK_MESSAGE : String :=
  "はい、承知いたしました。支援メイトBotとして、ご質問にお答えします。"

/-- src/main.py lines 126-130: the fixed daily-quota limit message. -/
def GEMINI_LIMIT_MESSAGE : String :=
  "申し訳ありません、本日のAIサポートのご利用回数の上限に達しました。\n明日またお話できますので、その時までお待ちください。\n\nもし緊急を要するご質問や、詳細な情報が必要な場合は、各事業所の担当者または法人本部にお問い合わせください。"

/-- src/main.py line 322: the reply used when the backend responds with an
unexpected shape or no usable text. -/
def MALFORMED_RESPONSE_MESSAGE : String :=
  "Geminiからの応答形式が予期せぬものでした。"

/-- src/main.py line 337: the reply used when the backend call raises. -/
def GEMINI_COMM_ERROR_MESSAGE : String :=
  "Geminiとの通信中にエラーが発生しました。時間を置いてお試しください。"

/-- src/main.py line 222: default display name used when get_profile does
not return one. -/
def DEFAULT_DISPLAY_NAME : String := "SHIP職員"

/-- src/main.py lines 247-251: the personalized onboarding message built
on the fresh-session path. -/
def personalized_initial_message (name : String) : String :=
  name ++ "さん、いつも利用者様支援に一生懸命取り組んでいただき、ありがとうございます。\n日々の業務や利用者支援でお困りでしたら、気軽にご相談ください。「支援メイトBot」が専門相談員としてサポートさせていただきます。\n\nより的確なアドバイスのため、例えば「事業所種別」や「障害の特性（例：統合失調症、知的障害3度、精神障害2級など）」など、分かる範囲でお知らせいただけますか？"

/-- Shape of the value returned by convo.send_message as scrutinised at
src/main.py lines 316-319: either a response object, carrying its Python
truthiness and an optional text attribute, or a Python list whose elements
each carry an optional text attribute. -/
inductive PyResponse where
  | obj (truthy : Bool) (text : Option String)
  | pylist (elems : List (Option String))
deriving DecidableEq

/-- The text-extraction cascade of src/main.py lines 316-319: a truthy
response object with a text attribute yields that text; otherwise a
non-empty list whose head has a text attribute yields the head text;
anything else is malformed (none). -/
def extractText : PyResponse → Option String
  | .obj truthy t => if truthy then t else none
  | .pylist [] => none
  | .pylist (e :: _) => e

/-- Outcome of the backend interaction at src/main.py lines 310-311: the
call either raises (network error, timeout, API error — the except branch
at line 335) or returns a value. -/
inductive GeminiResult where
  | err
  | ok (r : PyResponse)
deriving DecidableEq

/-- Whether the backend call returned without raising. -/
def isOk : GeminiResult → Bool
  | .err => false
  | .ok _ => true

/-- The fixed preamble pair prepended to every backend context
(src/main.py lines 288-291). -/
def preamble : List Turn :=
  [⟨"user", SHIP_SUPPORT_SYSTEM_PROMPT⟩, ⟨"model", GEMINI_ACK_MESSAGE⟩]

/-- chat_history_for_gemini after the loop at src/main.py lines 288-301:
the preamble pair followed by the slice of history from index
max 0 (length - MAX_CONTEXT_TURNS * 2) to the end.  Natural-number
subtraction truncates at zero exactly like the max with zero. -/
def chat_history_for_gemini (history : List Turn) : List Turn :=
  preamble ++ history.drop (history.length - MAX_CONTEXT_TURNS * 2)

/-- The complete context the backend sees for one call: the history handed
to start_chat plus the new user message passed to send_message
(src/main.py lines 310-311). -/
def contextSent (history : List Turn) (user_message : String) : List Turn :=
  chat_history_for_gemini history ++ [⟨"user", user_message⟩]

/-- Observable outcome of one handle_message invocation: the session
stored for the user afterwards, the text handed to reply_message, whether
the Gemini backend was invoked, and whether the branch (re)initialized the
session. -/
structure HandleResult where
  session : Session
  reply : String
  geminiCalled : Bool
  wasReset : Bool
deriving DecidableEq

/-- The freshly initialized session written at src/main.py lines 218-223,
with the display name as updated by the subsequent get_profile attempt
(lines 229-242): the fetched name when the call succeeds and the response
has a display name, the default otherwise. -/
def freshSession (profile : Option String) (today : Nat) : Session :=
  { history := []
    request_count := 0
    last_request_date := today
    display_name := profile.getD DEFAULT_DISPLAY_NAME }

/-- Outcome of the fresh-session branch (src/main.py lines 215-266):
store a reinitialized session, reply with the personalized onboarding
message, and return without calling the backend. -/
def freshResult (profile : Option String) (today : Nat) : HandleResult :=
  { session := freshSession profile today
    reply := personalized_initial_message (profile.getD DEFAULT_DISPLAY_NAME)
    geminiCalled := false
    wasReset := true }

/-- Shallow embedding of handle_message (src/main.py lines 201-353) for a
single user.  The argument profile is the oracle for the get_profile call
(none when it fails or the response lacks a display name), gemini is the
oracle for what the backend does if invoked, today is
datetime.date.today(), user_message is the inbound text, and the final
argument is the entry of user_sessions for this user before the call. -/
def handle_message (profile : Option String) (gemini : GeminiResult)
    (today : Nat) (user_message : String) :
    Option Session → HandleResult
  | none => freshResult profile today
  | some s =>
    if s.last_request_date ≠ today then
      freshResult profile today
    else if MAX_GEMINI_REQUESTS_PER_DAY ≤ s.request_count then
      { session := s, reply := GEMINI_LIMIT_MESSAGE
        geminiCalled := false, wasReset := false }
    else
      match gemini with
      | .err =>
        { session := s, reply := GEMINI_COMM_ERROR_MESSAGE
          geminiCalled := true, wasReset := false }
      | .ok r =>
        let response_text := (extractText r).getD MALFORMED_RESPONSE_MESSAGE
        { session :=
            { history := s.history ++ [⟨"user", user_message⟩, ⟨"model", response_text⟩]
              request_count := s.request_count + 1
              last_request_date := today
              display_name := s.display_name }
          reply := response_text
          geminiCalled := true
          wasReset := false }

/-- src/main.py contains no reset-command handling: no inbound text makes
handle_message reset a session other than through the new-user or
date-change conditions, so the reset-command predicate of the
specification is constantly false on this code. -/
def isResetCommand (_user_message : String) : Bool := false

/-- The effect of one handle_message call on the whole user_sessions
table: the entry of the handled user is always assigned, every other entry
is untouched. -/
def storeAfter (store : String → Option Session) (user_id : String)
    (profile : Option String) (gemini : GeminiResult) (today : Nat)
    (user_message : String) : String → Option Session :=
  fun u =>
    if u = user_id then
      some (handle_message profile gemini today user_message (store user_id)).session
    else store u

/-- All inputs that one processed message depends on: the get_profile
oracle, the backend oracle, the current date, and the message text. -/
structure Input where
  profile : Option String
  gemini : GeminiResult
  date : Nat
  msg : String
deriving DecidableEq

/-- One processed message, as a step on the per-user session state. -/
def step (i : Input) (sess : Option Session) : HandleResult :=
  handle_message i.profile i.gemini i.date i.msg sess

/-- Processing a sequence of messages for one user, threading the stored
session through the steps. -/
def runMessages : List Input → Option Session → Option Session
  | [], sess => sess
  | i :: rest, sess => runMessages rest (some (step i sess).session)

/-- Whether a step performed a backend call that returned without raising
(the code path that appends to history and increments the counter,
src/main.py lines 316-332). -/
def stepFulfilledB (i : Input) (sess : Option Session) : Bool :=
  (step i sess).geminiCalled && isOk i.gemini

/-- Number of non-raising backend calls performed along a run. -/
def countFulfilled : List Input → Option Session → Nat
  | [], _ => 0
  | i :: rest, sess =>
    (if stepFulfilledB i sess then 1 else 0) +
      countFulfilled rest (some (step i sess).session)

/-- Whether the backend value carries usable text, i.e. the call is
successful in the sense of the specification (malformed responses are
classified with backend errors there). -/
def isSuccessfulResp : GeminiResult → Bool
  | .err => false
  | .ok r => (extractText r).isSome

/-- Whether a step performed a backend call that produced usable text. -/
def stepSuccessfulB (i : Input) (sess : Option Session) : Bool :=
  (step i sess).geminiCalled && isSuccessfulResp i.gemini

/-- Number of backend calls with usable text along a run. -/
def countSuccessful : List Input → Option Session → Nat
  | [], _ => 0
  | i :: rest, sess =>
    (if stepSuccessfulB i sess then 1 else 0) +
      countSuccessful rest (some (step i sess).session)

/-- Flattening of a list of user and model text pairs into a strictly
alternating history. -/
def pairsFlatten : List (String × String) → List Turn
  | [] => []
  | p :: rest => ⟨"user", p.1⟩ :: ⟨"model", p.2⟩ :: pairsFlatten rest

/-- A history is paired when it is a flattening of user and model pairs. -/
def PairedHist (h : List Turn) : Prop := ∃ ps, h = pairsFlatten ps

/-! Helper lemmas. -/

theorem pairsFlatten_append (ps qs : List (String × String)) :
    pairsFlatten (ps ++ qs) = pairsFlatten ps ++ pairsFlatten qs := by
  induction ps with
  | nil => rfl
  | cons p rest ih => simp [pairsFlatten, ih]

theorem pairsFlatten_length (ps : List (String × String)) :
    (pairsFlatten ps).length = 2 * ps.length := by
  induction ps with
  | nil => rfl
  | cons p rest ih => simp [pairsFlatten, ih]; omega

theorem pairsFlatten_role (ps : List (String × String)) :
    ∀ (i : Nat) (hi : i < (pairsFlatten ps).length),
      ((pairsFlatten ps).get ⟨i, hi⟩).role =
        if i % 2 = 0 then "user" else "model" := by
  induction ps with
  | nil => intro i hi; simp [pairsFlatten] at hi
  | cons p rest ih =>
    intro i hi
    match i with
    | 0 => rfl
    | 1 => rfl
    | (n + 2) =>
      have hi' : n < (pairsFlatten rest).length := by
        simpa [pairsFlatten] using hi
      have hmod : (n + 2) % 2 = n % 2 := Nat.add_mod_right n 2
      calc ((pairsFlatten (p :: rest)).get ⟨n + 2, hi⟩).role
          = ((pairsFlatten rest).get ⟨n, hi'⟩).role := rfl
        _ = if n % 2 = 0 then "user" else "model" := ih n hi'
        _ = if (n + 2) % 2 = 0 then "user" else "model" := by rw [hmod]

theorem handle_message_session_date (profile : Option String)
    (gemini : GeminiResult) (today : Nat) (user_message : String)
    (sess : Option Session) :
    (handle_message profile gemini today user_message sess).session.last_request_date
      = today := by
  cases sess with
  | none => rfl
  | some s =>
    by_cases hd : s.last_request_date = today
    · cases gemini with
      | err =>
        by_cases hq : MAX_GEMINI_REQUESTS_PER_DAY ≤ s.request_count <;>
          simp [handle_message, hd, hq]
      | ok r =>
        by_cases hq : MAX_GEMINI_REQUESTS_PER_DAY ≤ s.request_count <;>
          simp [handle_message, hd, hq]
    · simp [handle_message, hd, freshResult, freshSession]

theorem step_session_date (i : Input) (sess : Option Session) :
    (step i sess).session.last_request_date = i.date :=
  handle_message_session_date i.profile i.gemini i.date i.msg sess

theorem runMessages_some (inputs : List Input) :
    ∀ (s : Session), ∃ s', runMessages inputs (some s) = some s' := by
  induction inputs with
  | nil => intro s; exact ⟨s, rfl⟩
  | cons i rest ih =>
    intro s
    exact ih (step i (some s)).session

theorem step_paired (i : Input) (sess : Option Session)
    (h : ∀ s, sess = some s → PairedHist s.history) :
    PairedHist (step i sess).session.history := by
  cases sess with
  | none => exact ⟨[], rfl⟩
  | some s =>
    by_cases hd : s.last_request_date = i.date
    · by_cases hq : MAX_GEMINI_REQUESTS_PER_DAY ≤ s.request_count
      · have hs : (step i (some s)).session = s := by
          simp [step, handle_message, hd, hq]
        rw [hs]; exact h s rfl
      · cases hg : i.gemini with
        | err =>
          have hs : (step i (some s)).session = s := by
            simp [step, handle_message, hd, hq, hg]
          rw [hs]; exact h s rfl
        | ok r =>
          obtain ⟨ps, hps⟩ := h s rfl
          refine ⟨ps ++ [(i.msg, (extractText r).getD MALFORMED_RESPONSE_MESSAGE)], ?_⟩
          have hs : (step i (some s)).session.history =
              s.history ++
                [⟨"user", i.msg⟩,
                 ⟨"model", (extractText r).getD MALFORMED_RESPONSE_MESSAGE⟩] := by
            simp [step, handle_message, hd, hq, hg]
          rw [hs, hps, pairsFlatten_append]
          rfl
    · have hs : (step i (some s)).session = freshSession i.profile i.date := by
        simp [step, handle_message, hd, freshResult]
      rw [hs]; exact ⟨[], rfl⟩

theorem run_paired (inputs : List Input) :
    ∀ (sess : Option Session),
      (∀ s, sess = some s → PairedHist s.history) →
      ∀ s', runMessages inputs sess = some s' → PairedHist s'.history := by
  induction inputs with
  | nil =>
    intro sess h s' hrun
    exact h s' hrun
  | cons i rest ih =>
    intro sess h s' hrun
    refine ih (some (step i sess).session) ?_ s' hrun
    intro t ht
    cases ht
    exact step_paired i sess h

theorem run_sameday (d : Nat) (inputs : List Input) :
    (∀ i ∈ inputs, i.date = d) →
    ∀ (s : Session), s.last_request_date = d →
    ∀ s', runMessages inputs (some s) = some s' →
      s'.request_count = s.request_count + countFulfilled inputs (some s) ∧
      s'.last_request_date = d ∧
      s'.request_count ≤ max s.request_count MAX_GEMINI_REQUESTS_PER_DAY := by
  induction inputs with
  | nil =>
    intro _ s hd s' hrun
    simp only [runMessages] at hrun
    cases hrun
    refine ⟨by simp [countFulfilled], hd, le_max_left _ _⟩
  | cons i rest ih =>
    intro hall s hd s' hrun
    have hdate : i.date = d := hall i (List.mem_cons_self i rest)
    have hd' : s.last_request_date = i.date := by rw [hd, hdate]
    by_cases hq : MAX_GEMINI_REQUESTS_PER_DAY ≤ s.request_count
    · have hs : step i (some s) =
          { session := s, reply := GEMINI_LIMIT_MESSAGE
            geminiCalled := false, wasReset := false } := by
        simp [step, handle_message, hd', hq]
      have hstepf : stepFulfilledB i (some s) = false := by
        simp [stepFulfilledB, hs]
      have hrun' : runMessages rest (some s) = some s' := by
        simpa only [runMessages, hs] using hrun
      obtain ⟨h1, h2, h3⟩ :=
        ih (fun j hj => hall j (List.mem_cons_of_mem i hj)) s hd s' hrun'
      refine ⟨?_, h2, h3⟩
      simp only [countFulfilled, hstepf, hs]
      simp only [Bool.false_eq_true, if_false]
      omega
    · cases hg : i.gemini with
      | err =>
        have hs : step i (some s) =
            { session := s, reply := GEMINI_COMM_ERROR_MESSAGE
              geminiCalled := true, wasReset := false } := by
          simp [step, handle_message, hd', hq, hg]
        have hstepf : stepFulfilledB i (some s) = false := by
          simp [stepFulfilledB, hg, isOk]
        have hrun' : runMessages rest (some s) = some s' := by
          simpa only [runMessages, hs] using hrun
        obtain ⟨h1, h2, h3⟩ :=
          ih (fun j hj => hall j (List.mem_cons_of_mem i hj)) s hd s' hrun'
        refine ⟨?_, h2, h3⟩
        simp only [countFulfilled, hstepf, hs]
        simp only [Bool.false_eq_true, if_false]
        omega
      | ok r =>
        have hs : (step i (some s)).session =
            { history := s.history ++
                [⟨"user", i.msg⟩,
                 ⟨"model", (extractText r).getD MALFORMED_RESPONSE_MESSAGE⟩]
              request_count := s.request_count + 1
              last_request_date := i.date
              display_name := s.display_name } := by
          simp [step, handle_message, hd', hq, hg]
        have hstepf : stepFulfilledB i (some s) = true := by
          simp [stepFulfilledB, hg, isOk, step, handle_message, hd', hq]
        have hrun' : runMessages rest (some (step i (some s)).session) = some s' := by
          simpa only [runMessages] using hrun
        obtain ⟨h1, h2, h3⟩ :=
          ih (fun j hj => hall j (List.mem_cons_of_mem i hj))
            (step i (some s)).session (by rw [hs]; exact hdate) s' hrun'
        have hcount : (step i (some s)).session.request_count = s.request_count + 1 := by
          rw [hs]
        constructor
        · simp only [countFulfilled, hstepf, if_true]
          omega
        refine ⟨h2, ?_⟩
        have hlt : s.request_count < MAX_GEMINI_REQUESTS_PER_DAY := Nat.lt_of_not_le hq
        rw [hcount] at h3
        omega

theorem fulfilled_step_increments (i : Input) (s : Session)
    (h : stepFulfilledB i (some s) = true) :
    (step i (some s)).session.request_count = s.request_count + 1 ∧
    (step i (some s)).session.last_request_date = i.date := by
  by_cases hd : s.last_request_date = i.date
  · by_cases hq : MAX_GEMINI_REQUESTS_PER_DAY ≤ s.request_count
    · simp [stepFulfilledB, step, handle_message, hd, hq] at h
    · cases hg : i.gemini with
      | err => simp [stepFulfilledB, hg, isOk] at h
      | ok r =>
        constructor <;> simp [step, handle_message, hd, hq, hg]
  · simp [stepFulfilledB, step, handle_message, hd, freshResult] at h

/-! Claim theorems. -/

/-- C2: for every session and every processed message, if the backend call
raises an error or times out, then after the handler completes the session
equals its pre-call value — history and request_count included, so no
partial turn is recorded and no quota is consumed — and the fixed fallback
message is the reply text. -/
theorem backend_error_leaves_session (profile : Option String) (d : Nat)
    (m : String) (s : Session)
    (hd : s.last_request_date = d)
    (hq : s.request_count < MAX_GEMINI_REQUESTS_PER_DAY) :
    handle_message profile GeminiResult.err d m (some s) =
      { session := s, reply := GEMINI_COMM_ERROR_MESSAGE
        geminiCalled := true, wasReset := false } := by
  simp [handle_message, hd, Nat.not_le.mpr hq]

/-- Witness for C2 at a concrete session with two history turns and
request_count three on day seven. -/
theorem backend_error_leaves_session_witness :
    ((⟨[⟨"user", "a"⟩, ⟨"model", "b"⟩], 3, 7, DEFAULT_DISPLAY_NAME⟩ : Session).last_request_date = 7 ∧
     (⟨[⟨"user", "a"⟩, ⟨"model", "b"⟩], 3, 7, DEFAULT_DISPLAY_NAME⟩ : Session).request_count <
       MAX_GEMINI_REQUESTS_PER_DAY) ∧
    handle_message none GeminiResult.err 7 "m"
        (some ⟨[⟨"user", "a"⟩, ⟨"model", "b"⟩], 3, 7, DEFAULT_DISPLAY_NAME⟩) =
      { session := ⟨[⟨"user", "a"⟩, ⟨"model", "b"⟩], 3, 7, DEFAULT_DISPLAY_NAME⟩
        reply := GEMINI_COMM_ERROR_MESSAGE, geminiCalled := true, wasReset := false } :=
  ⟨⟨rfl, by decide⟩, backend_error_leaves_session none 7 "m" _ rfl (by decide)⟩

/-- C7: for every existing same-day session whose request_count has
reached MAX_GEMINI_REQUESTS_PER_DAY, a new message yields the fixed quota
message, the backend is not invoked, and the stored session — history and
request_count included — is unchanged. -/
theorem quota_exceeded_fixed_reply (profile : Option String)
    (g : GeminiResult) (d : Nat) (m : String) (s : Session)
    (hd : s.last_request_date = d)
    (hq : MAX_GEMINI_REQUESTS_PER_DAY ≤ s.request_count) :
    handle_message profile g d m (some s) =
      { session := s, reply := GEMINI_LIMIT_MESSAGE
        geminiCalled := false, wasReset := false } := by
  simp [handle_message, hd, hq]

/-- Witness for C7 at a concrete same-day session with request_count
twenty. -/
theorem quota_exceeded_fixed_reply_witness :
    ((⟨[], 20, 2, DEFAULT_DISPLAY_NAME⟩ : Session).last_request_date = 2 ∧
     MAX_GEMINI_REQUESTS_PER_DAY ≤ (⟨[], 20, 2, DEFAULT_DISPLAY_NAME⟩ : Session).request_count) ∧
    handle_message none (GeminiResult.ok (PyResponse.obj true (some "x"))) 2 "more"
        (some ⟨[], 20, 2, DEFAULT_DISPLAY_NAME⟩) =
      { session := ⟨[], 20, 2, DEFAULT_DISPLAY_NAME⟩
        reply := GEMINI_LIMIT_MESSAGE, geminiCalled := false, wasReset := false } :=
  ⟨⟨rfl, by decide⟩,
    quota_exceeded_fixed_reply none (GeminiResult.ok (PyResponse.obj true (some "x")))
      2 "more" _ rfl (by decide)⟩

/-- C6: the first message of a calendar day, or the first message ever,
takes the fresh-session path regardless of message content and of the
previous request_count: the onboarding message is the reply, the backend
is not called, the stored request_count is zero, and the message is not
appended to history. -/
theorem first_message_of_day (profile : Option String) (g : GeminiResult)
    (d : Nat) (m : String) (sess : Option Session)
    (h : sess = none ∨ ∃ s, sess = some s ∧ s.last_request_date ≠ d) :
    (handle_message profile g d m sess).reply =
        personalized_initial_message (profile.getD DEFAULT_DISPLAY_NAME) ∧
    (handle_message profile g d m sess).geminiCalled = false ∧
    (handle_message profile g d m sess).session.request_count = 0 ∧
    (handle_message profile g d m sess).session.history = [] := by
  rcases h with h | ⟨s, rfl, hne⟩
  · subst h
    exact ⟨rfl, rfl, rfl, rfl⟩
  · simp [handle_message, hne, freshResult, freshSession]

/-- Witness for C6 at a stale session whose previous-day request_count had
already reached the maximum. -/
theorem first_message_of_day_witness :
    (some (⟨[], 20, 5, DEFAULT_DISPLAY_NAME⟩ : Session) = none ∨
      ∃ s, some (⟨[], 20, 5, DEFAULT_DISPLAY_NAME⟩ : Session) = some s ∧
        s.last_request_date ≠ 6) ∧
    ((handle_message none GeminiResult.err 6 "hello"
        (some ⟨[], 20, 5, DEFAULT_DISPLAY_NAME⟩)).reply =
      personalized_initial_message ((none : Option String).getD DEFAULT_DISPLAY_NAME) ∧
     (handle_message none GeminiResult.err 6 "hello"
        (some ⟨[], 20, 5, DEFAULT_DISPLAY_NAME⟩)).geminiCalled = false ∧
     (handle_message none GeminiResult.err 6 "hello"
        (some ⟨[], 20, 5, DEFAULT_DISPLAY_NAME⟩)).session.request_count = 0 ∧
     (handle_message none GeminiResult.err 6 "hello"
        (some ⟨[], 20, 5, DEFAULT_DISPLAY_NAME⟩)).session.history = []) :=
  have h : some (⟨[], 20, 5, DEFAULT_DISPLAY_NAME⟩ : Session) = none ∨
      ∃ s, some (⟨[], 20, 5, DEFAULT_DISPLAY_NAME⟩ : Session) = some s ∧
        s.last_request_date ≠ 6 :=
    Or.inr ⟨_, rfl, by decide⟩
  ⟨h, first_message_of_day none GeminiResult.err 6 "hello" _ h⟩

/-- C10: after any message from a user is handled, that user's entry in
the session table exists and its last_request_date equals the date
observed at the start of handling: the fresh path initializes it to today
and the quota, success and failure paths preserve or rewrite a value that
the branch condition already forces to be today. -/
theorem session_exists_with_current_date (store : String → Option Session)
    (uid : String) (profile : Option String) (g : GeminiResult) (d : Nat)
    (m : String) :
    ∃ s, storeAfter store uid profile g d m uid = some s ∧
      s.last_request_date = d := by
  refine ⟨(handle_message profile g d m (store uid)).session, ?_,
    handle_message_session_date profile g d m (store uid)⟩
  simp [storeAfter]

/-- C4: for every stored history, the context sent to the backend is
exactly the fixed preamble pair, followed by the most recent
MAX_CONTEXT_TURNS * 2 entries of history in original order — a suffix of
history of length min (MAX_CONTEXT_TURNS * 2) (length of history), hence
all of history when it is shorter and never more than
MAX_CONTEXT_TURNS * 2 entries — followed by the new user message as the
final turn; and the handler never persists the preamble pair: the stored
history is only ever emptied, kept, or extended by the user message and
one model turn. -/
theorem context_window (h : List Turn) (m : String) :
    ∃ tail, List.IsSuffix tail h ∧
      tail.length = min (MAX_CONTEXT_TURNS * 2) h.length ∧
      tail.length ≤ MAX_CONTEXT_TURNS * 2 ∧
      contextSent h m = preamble ++ tail ++ [⟨"user", m⟩] ∧
      (∀ (profile : Option String) (g : GeminiResult) (d : Nat)
          (sess : Option Session),
        (handle_message profile g d m sess).session.history = [] ∨
        (∃ s, sess = some s ∧
          (handle_message profile g d m sess).session.history = s.history) ∨
        (∃ s t, sess = some s ∧
          (handle_message profile g d m sess).session.history =
            s.history ++ [⟨"user", m⟩, ⟨"model", t⟩])) := by
  refine ⟨h.drop (h.length - MAX_CONTEXT_TURNS * 2), List.drop_suffix _ _,
    ?_, ?_, ?_, ?_⟩
  · rw [List.length_drop]
    simp only [MAX_CONTEXT_TURNS]
    omega
  · rw [List.length_drop]
    simp only [MAX_CONTEXT_TURNS]
    omega
  · simp [contextSent, chat_history_for_gemini, List.append_assoc]
  · intro profile g d sess
    cases sess with
    | none => exact Or.inl rfl
    | some s =>
      by_cases hd : s.last_request_date = d
      · by_cases hq : MAX_GEMINI_REQUESTS_PER_DAY ≤ s.request_count
        · exact Or.inr (Or.inl ⟨s, rfl, by simp [handle_message, hd, hq]⟩)
        · cases g with
          | err =>
            exact Or.inr (Or.inl ⟨s, rfl, by simp [handle_message, hd, hq]⟩)
          | ok r =>
            exact Or.inr (Or.inr ⟨s, (extractText r).getD MALFORMED_RESPONSE_MESSAGE,
              rfl, by simp [handle_message, hd, hq]⟩)
      · exact Or.inl (by simp [handle_message, hd, freshResult, freshSession])

/-- C3: the session is reinitialized — history cleared, request_count set
to zero, last_request_date set to today — if and only if no session
exists for the user, or the stored last_request_date differs from the
current date, or an explicit reset command is received (the code has no
reset command, so that predicate is constantly false); in all other cases
no reinitialization happens. -/
theorem session_reset_iff (profile : Option String) (g : GeminiResult)
    (d : Nat) (m : String) (sess : Option Session) :
    ((handle_message profile g d m sess).wasReset = true ↔
      sess = none ∨ (∃ s, sess = some s ∧ s.last_request_date ≠ d) ∨
        isResetCommand m = true) ∧
    ((handle_message profile g d m sess).wasReset = true →
      (handle_message profile g d m sess).session = freshSession profile d) := by
  cases sess with
  | none =>
    constructor
    · simp [handle_message, freshResult]
    · intro _
      rfl
  | some s =>
    by_cases hd : s.last_request_date = d
    · have hw : (handle_message profile g d m (some s)).wasReset = false := by
        by_cases hq : MAX_GEMINI_REQUESTS_PER_DAY ≤ s.request_count
        · simp [handle_message, hd, hq]
        · cases g <;> simp [handle_message, hd, hq]
      rw [hw]
      constructor
      · simp [isResetCommand, hd]
      · intro hcontra
        exact absurd hcontra (by simp)
    · constructor
      · simp [handle_message, hd, freshResult]
      · intro _
        simp [handle_message, hd, freshResult]

/-- C5: every session reachable by any sequence of processed messages has
a history of even length whose roles strictly alternate starting with
user, so it never contains two consecutive turns of the same role. -/
theorem history_always_paired (inputs : List Input) (s : Session)
    (h : runMessages inputs none = some s) :
    s.history.length % 2 = 0 ∧
    (∀ (i : Nat) (hi : i < s.history.length),
      (s.history.get ⟨i, hi⟩).role = if i % 2 = 0 then "user" else "model") ∧
    (∀ (i : Nat) (hi : i < s.history.length) (hi' : i + 1 < s.history.length),
      (s.history.get ⟨i, hi⟩).role ≠ (s.history.get ⟨i + 1, hi'⟩).role) := by
  obtain ⟨ps, hps⟩ := run_paired inputs none (by intro t ht; cases ht) s h
  rw [hps]
  refine ⟨?_, pairsFlatten_role ps, ?_⟩
  · rw [pairsFlatten_length]
    omega
  · intro i hi hi'
    rw [pairsFlatten_role ps i hi, pairsFlatten_role ps (i + 1) hi']
    rcases Nat.even_or_odd i with he | ho
    · have h1 : i % 2 = 0 := Nat.even_iff.mp he
      have h2 : (i + 1) % 2 = 1 := by omega
      simp [h1, h2]
    · have h1 : i % 2 = 1 := Nat.odd_iff.mp ho
      have h2 : (i + 1) % 2 = 0 := by omega
      simp [h1, h2]

/-- Witness for C5: a run of one fresh message and one answered message
reaches a session with exactly one user-model pair. -/
theorem history_always_paired_witness :
    runMessages
        [⟨none, GeminiResult.err, 0, "hi"⟩,
         ⟨none, GeminiResult.ok (PyResponse.obj true (some "A")), 0, "q"⟩] none =
      some ⟨[⟨"user", "q"⟩, ⟨"model", "A"⟩], 1, 0, DEFAULT_DISPLAY_NAME⟩ ∧
    (⟨[⟨"user", "q"⟩, ⟨"model", "A"⟩], 1, 0, DEFAULT_DISPLAY_NAME⟩ : Session).history.length % 2 = 0 :=
  ⟨rfl,
    (history_always_paired
      [⟨none, GeminiResult.err, 0, "hi"⟩,
       ⟨none, GeminiResult.ok (PyResponse.obj true (some "A")), 0, "q"⟩]
      ⟨[⟨"user", "q"⟩, ⟨"model", "A"⟩], 1, 0, DEFAULT_DISPLAY_NAME⟩ rfl).1⟩

/-- Counterexample to C1 as stated: with a same-day under-quota session
and a backend value that is a truthy response object without a text
attribute — a malformed response with no usable text — the handler does
persist: the user message and the malformed-response fallback are appended
to history and request_count rises from zero to one; moreover the reply
differs from the backend-error fallback, so the malformed case is not
treated identically to a backend error. -/
theorem malformed_response_persists_cex :
    extractText (PyResponse.obj true none) = none ∧
    handle_message none (GeminiResult.ok (PyResponse.obj true none)) 0 "q"
        (some ⟨[], 0, 0, DEFAULT_DISPLAY_NAME⟩) =
      { session := ⟨[⟨"user", "q"⟩, ⟨"model", MALFORMED_RESPONSE_MESSAGE⟩], 1, 0,
          DEFAULT_DISPLAY_NAME⟩
        reply := MALFORMED_RESPONSE_MESSAGE, geminiCalled := true, wasReset := false } ∧
    MALFORMED_RESPONSE_MESSAGE ≠ GEMINI_COMM_ERROR_MESSAGE :=
  ⟨rfl, rfl, by decide⟩

/-- C1 as amended: on the backend-call path, when the backend returns
without raising but the response carries no usable text, the handler
replies with the fixed malformed-response message and, unlike the
backend-error case, persists the turn: the user message and that fallback
text are appended to history, request_count is incremented by one, and
last_request_date is refreshed. -/
theorem malformed_response_behavior (profile : Option String)
    (r : PyResponse) (d : Nat) (m : String) (s : Session)
    (hr : extractText r = none)
    (hd : s.last_request_date = d)
    (hq : s.request_count < MAX_GEMINI_REQUESTS_PER_DAY) :
    handle_message profile (GeminiResult.ok r) d m (some s) =
      { session :=
          { history := s.history ++
              [⟨"user", m⟩, ⟨"model", MALFORMED_RESPONSE_MESSAGE⟩]
            request_count := s.request_count + 1
            last_request_date := d
            display_name := s.display_name }
        reply := MALFORMED_RESPONSE_MESSAGE
        geminiCalled := true
        wasReset := false } := by
  simp [handle_message, hd, Nat.not_le.mpr hq, hr]

/-- Witness for the amended C1 at a concrete malformed response: an empty
Python list. -/
theorem malformed_response_behavior_witness :
    (extractText (PyResponse.pylist []) = none ∧
     (⟨[], 2, 4, DEFAULT_DISPLAY_NAME⟩ : Session).last_request_date = 4 ∧
     (⟨[], 2, 4, DEFAULT_DISPLAY_NAME⟩ : Session).request_count <
       MAX_GEMINI_REQUESTS_PER_DAY) ∧
    handle_message none (GeminiResult.ok (PyResponse.pylist [])) 4 "w"
        (some ⟨[], 2, 4, DEFAULT_DISPLAY_NAME⟩) =
      { session :=
          { history := ([] : List Turn) ++
              [⟨"user", "w"⟩, ⟨"model", MALFORMED_RESPONSE_MESSAGE⟩]
            request_count := 2 + 1
            last_request_date := 4
            display_name := DEFAULT_DISPLAY_NAME }
        reply := MALFORMED_RESPONSE_MESSAGE
        geminiCalled := true
        wasReset := false } :=
  ⟨⟨rfl, rfl, by decide⟩,
    malformed_response_behavior none (PyResponse.pylist []) 4 "w" _ rfl rfl (by decide)⟩

/-- Counterexample to C8 as stated: a one-day run of two messages — the
fresh onboarding message followed by a message whose backend call returns
a malformed response with no usable text — performs zero successful
backend calls in the sense of the specification, which classifies
malformed responses with backend errors, yet ends with request_count one,
not zero. -/
theorem request_count_exceeds_successful_cex :
    countSuccessful
        [⟨none, GeminiResult.err, 0, "hello"⟩,
         ⟨none, GeminiResult.ok (PyResponse.obj true none), 0, "q2"⟩] none = 0 ∧
    runMessages
        [⟨none, GeminiResult.err, 0, "hello"⟩,
         ⟨none, GeminiResult.ok (PyResponse.obj true none), 0, "q2"⟩] none =
      some ⟨[⟨"user", "q2"⟩, ⟨"model", MALFORMED_RESPONSE_MESSAGE⟩], 1, 0,
        DEFAULT_DISPLAY_NAME⟩ :=
  ⟨rfl, rfl⟩

/-- C8 as amended: within one calendar day, request_count equals the
number of backend calls that completed without raising — which includes
calls whose response was malformed, since the code persists and counts
those too; each such completed call increments request_count by exactly
one and refreshes last_request_date; and at most
MAX_GEMINI_REQUESTS_PER_DAY such calls complete per user per day. -/
theorem request_count_tracks_fulfilled (d : Nat) (inputs : List Input)
    (hall : ∀ i ∈ inputs, i.date = d) :
    (∀ s', runMessages inputs none = some s' →
        s'.request_count = countFulfilled inputs none ∧
        s'.last_request_date = d) ∧
    countFulfilled inputs none ≤ MAX_GEMINI_REQUESTS_PER_DAY ∧
    (∀ i ∈ inputs, ∀ s : Session, stepFulfilledB i (some s) = true →
        (step i (some s)).session.request_count = s.request_count + 1 ∧
        (step i (some s)).session.last_request_date = d) := by
  refine ⟨?_, ?_, ?_⟩
  · intro s' hrun
    cases inputs with
    | nil => simp [runMessages] at hrun
    | cons i rest =>
      have hdate : i.date = d := hall i (List.mem_cons_self i rest)
      have hstep0 : stepFulfilledB i none = false := by
        simp [stepFulfilledB, step, handle_message, freshResult]
      have hfs : (step i none).session = freshSession i.profile i.date := rfl
      have hrun' :
          runMessages rest (some (freshSession i.profile i.date)) = some s' := by
        simpa only [runMessages, hfs] using hrun
      obtain ⟨h1, h2, _⟩ := run_sameday d rest
        (fun j hj => hall j (List.mem_cons_of_mem i hj))
        (freshSession i.profile i.date) (by simp [freshSession, hdate]) s' hrun'
      constructor
      · rw [h1]
        simp [countFulfilled, hstep0, hfs, freshSession]
      · exact h2
  · cases inputs with
    | nil => decide
    | cons i rest =>
      have hdate : i.date = d := hall i (List.mem_cons_self i rest)
      have hstep0 : stepFulfilledB i none = false := by
        simp [stepFulfilledB, step, handle_message, freshResult]
      have hfs : (step i none).session = freshSession i.profile i.date := rfl
      obtain ⟨s', hs'⟩ := runMessages_some rest (freshSession i.profile i.date)
      obtain ⟨h1, _, h3⟩ := run_sameday d rest
        (fun j hj => hall j (List.mem_cons_of_mem i hj))
        (freshSession i.profile i.date) (by simp [freshSession, hdate]) s' hs'
      have hcf : countFulfilled (i :: rest) none =
          countFulfilled rest (some (freshSession i.profile i.date)) := by
        simp [countFulfilled, hstep0, hfs]
      rw [hcf]
      have h0 : (freshSession i.profile i.date).request_count = 0 := rfl
      rw [h0] at h1 h3
      omega
  · intro i hi s hf
    obtain ⟨ha, hb⟩ := fulfilled_step_increments i s hf
    exact ⟨ha, by rw [hb, hall i hi]⟩

/-- Witness for the amended C8 on a concrete two-message same-day run with
one completed backend call. -/
theorem request_count_tracks_fulfilled_witness :
    (∀ i ∈ ([⟨none, GeminiResult.err, 0, "hi"⟩,
             ⟨none, GeminiResult.ok (PyResponse.obj true (some "B")), 0, "p"⟩] :
        List Input), i.date = 0) ∧
    ((∀ s', runMessages
          [⟨none, GeminiResult.err, 0, "hi"⟩,
           ⟨none, GeminiResult.ok (PyResponse.obj true (some "B")), 0, "p"⟩] none =
          some s' →
        s'.request_count = countFulfilled
          [⟨none, GeminiResult.err, 0, "hi"⟩,
           ⟨none, GeminiResult.ok (PyResponse.obj true (some "B")), 0, "p"⟩] none ∧
        s'.last_request_date = 0) ∧
     countFulfilled
        [⟨none, GeminiResult.err, 0, "hi"⟩,
         ⟨none, GeminiResult.ok (PyResponse.obj true (some "B")), 0, "p"⟩] none ≤
       MAX_GEMINI_REQUESTS_PER_DAY ∧
     (∀ i ∈ ([⟨none, GeminiResult.err, 0, "hi"⟩,
              ⟨none, GeminiResult.ok (PyResponse.obj true (some "B")), 0, "p"⟩] :
         List Input), ∀ s : Session, stepFulfilledB i (some s) = true →
        (step i (some s)).session.request_count = s.request_count + 1 ∧
        (step i (some s)).session.last_request_date = 0)) :=
  ⟨by decide,
    request_count_tracks_fulfilled 0
      [⟨none, GeminiResult.err, 0, "hi"⟩,
       ⟨none, GeminiResult.ok (PyResponse.obj true (some "B")), 0, "p"⟩]
      (by decide)⟩

end ShipBot
